import Mathlib

/-!
Verification development for the jetson_stats_node_exporter core:
a shallow embedding of `jtop_stats.py` (storage normalisation and the
stateful network-rate computation) and of the snapshot-to-metric mappers
in `exporter.py`, with theorems settling the specified properties.

Python dictionaries are modelled as insertion-ordered association lists,
Python numbers as rationals, and fallible Python code (statements that can
raise) as `Option`-valued functions where `none` marks a raised exception.
-/

/-- Python dictionaries with string keys, as insertion-ordered association
lists.  `pyGet` is `d.get(k)` / `d[k]`, returning the first binding. -/
abbrev PyDict (α : Type) : Type := List (String × α)

def pyGet {α : Type} : PyDict α → String → Option α
  | [], _ => none
  | (k, v) :: rest, key => if k == key then some v else pyGet rest key

/-- Python `d.get(k, default)`. -/
def pyGetD {α : Type} (d : PyDict α) (k : String) (dflt : α) : α :=
  (pyGet d k).getD dflt

/-- Python `k in d`. -/
def pyHas {α : Type} (d : PyDict α) (k : String) : Bool :=
  (pyGet d k).isSome

/-- Python `d[k] = v`: overwrite in place when the key exists (keeping its
position), otherwise append a new binding. -/
def pySet {α : Type} : PyDict α → String → α → PyDict α
  | [], key, v => [(key, v)]
  | (k, w) :: rest, key, v =>
    if k == key then (k, v) :: rest else (k, w) :: pySet rest key v

/- ----------------------------------------------------------------------
Network rate layer: `JtopObservable.get_network_bandwidth`
(jtop_stats.py, lines 50-69).
---------------------------------------------------------------------- -/

/-- One `psutil` per-interface counter record (fields the code reads). -/
structure NetIOCounters where
  bytes_recv : ℚ
  bytes_sent : ℚ
deriving DecidableEq

/-- One computed per-interface rate record. -/
structure NetRates where
  rx_bytes_per_sec : ℚ
  tx_bytes_per_sec : ℚ
deriving DecidableEq

/-- The state the observer retains across calls: `self.prev_net_io` and
`self.last_net_time`. -/
structure NetState where
  prev_net_io : PyDict NetIOCounters
  last_net_time : ℚ
deriving DecidableEq

/-- The per-interface loop of `get_network_bandwidth` (lines 56-65).
Interfaces missing from the previous sample are skipped with `continue`;
for shared interfaces the byte deltas are divided by `interval`, and a
zero `interval` makes that division raise `ZeroDivisionError`, modelled
as `none`. -/
def netRateLoop (prev : PyDict NetIOCounters) (interval : ℚ) :
    PyDict NetIOCounters → Option (PyDict NetRates)
  | [] => some []
  | (iface, stats) :: rest =>
    match pyGet prev iface with
    | none => netRateLoop prev interval rest
    | some prev_stats =>
      if interval = 0 then none
      else
        match netRateLoop prev interval rest with
        | none => none
        | some tail =>
          some ((iface,
            { rx_bytes_per_sec := (stats.bytes_recv - prev_stats.bytes_recv) / interval
              tx_bytes_per_sec := (stats.bytes_sent - prev_stats.bytes_sent) / interval }) :: tail)

/-- `JtopObservable.get_network_bandwidth` with the wall clock and the fresh
counter sample passed explicitly.  On success it returns the per-interface
rates together with the new stored state (lines 67-68); `none` models the
`ZeroDivisionError` escaping the method before lines 67-68 run. -/
def get_network_bandwidth (st : NetState) (now : ℚ)
    (current : PyDict NetIOCounters) : Option (PyDict NetRates × NetState) :=
  match netRateLoop st.prev_net_io (now - st.last_net_time) current with
  | none => none
  | some result => some (result, { prev_net_io := current, last_net_time := now })

/-- The observer state after a call: when the division raises, the exception
propagates before the assignments on lines 67-68, so the stored sample and
timestamp are unchanged. -/
def netStateAfter (st : NetState) (now : ℚ)
    (current : PyDict NetIOCounters) : NetState :=
  match get_network_bandwidth st now current with
  | none => st
  | some pr => pr.2

/- ----------------------------------------------------------------------
Storage layer: `JtopObservable.get_storage_info`
(jtop_stats.py, lines 33-47).
---------------------------------------------------------------------- -/

/-- One `psutil.disk_partitions()` entry (the code only reads `mountpoint`). -/
structure DiskPartition where
  mountpoint : String
deriving DecidableEq

/-- The inner loop of `get_storage_info` (lines 44-45): write every metric of
one `psutil.disk_usage(...)` record into the per-mount dictionary, divided by
`unit_factor = 1_000_000_000`. -/
def storeMetrics : PyDict ℚ → PyDict ℚ → PyDict ℚ
  | d, [] => d
  | d, (metric, value) :: rest => storeMetrics (pySet d metric (value / 1000000000)) rest

/-- The outer loop of `get_storage_info` (lines 39-45), with the
`psutil.disk_usage` results supplied as the `usage` map. -/
def storageLoop (usage : String → PyDict ℚ) :
    List DiskPartition → PyDict (PyDict ℚ) → PyDict (PyDict ℚ)
  | [], storage => storage
  | part :: rest, storage =>
    let disk_use := usage part.mountpoint
    let storage1 :=
      if pyHas storage part.mountpoint then storage
      else pySet storage part.mountpoint []
    let storage2 :=
      pySet storage1 part.mountpoint
        (storeMetrics (pyGetD storage1 part.mountpoint []) disk_use)
    storageLoop usage rest storage2

/-- `JtopObservable.get_storage_info`: returns the per-mount-point normalized
usage dictionary together with the fixed unit label. -/
def get_storage_info (usage : String → PyDict ℚ) (partitions : List DiskPartition) :
    PyDict (PyDict ℚ) × String :=
  (storageLoop usage partitions [], "GB")

/- ----------------------------------------------------------------------
Metric records produced by the exporter mappers (exporter.py).
---------------------------------------------------------------------- -/

/-- A value handed to `GaugeMetricFamily.add_metric`.  The exporter normally
passes numbers; `MVal.pydict` records the one place where the code passes a
whole sub-dictionary instead (see `diskVal`). -/
inductive MVal where
  | q (x : ℚ)
  | pydict (d : List (String × ℚ))
deriving DecidableEq

/-- One `GaugeMetricFamily`: name, documentation, declared label names, unit
("" when the constructor is called without one) and the added rows. -/
structure MetricFamily where
  name : String
  documentation : String
  labels : List String
  unit : String
  rows : List (List String × MVal)
deriving DecidableEq

/-- Python `str(bool).lower()`. -/
def pyBoolStr (b : Bool) : String :=
  if b then "true" else "false"

/- ----------------------------------------------------------------------
Telemetry snapshot (the dictionary built by `JtopObservable.read_stats`),
modelled with one `Option` per `.get` the mappers perform.
---------------------------------------------------------------------- -/

structure CpuFreq where
  cur : Option ℚ
  min : Option ℚ
  max : Option ℚ
deriving DecidableEq

structure CpuCore where
  online : Option Bool
  freq : Option CpuFreq
  user : Option ℚ
  nice : Option ℚ
  system : Option ℚ
  idle : Option ℚ
deriving DecidableEq

structure CpuTotal where
  user : Option ℚ
  nice : Option ℚ
  system : Option ℚ
  idle : Option ℚ
deriving DecidableEq

/-- `jtop_stats["cpu"]`: the per-core list and the aggregate block.  A missing
or empty (falsy) `total` dictionary is modelled as `none`. -/
structure CpuData where
  cpu : Option (List CpuCore)
  total : Option CpuTotal
deriving DecidableEq

structure GpuStatus where
  load : Option ℚ
deriving DecidableEq

structure GpuFreq where
  cur : Option ℚ
  min : Option ℚ
  max : Option ℚ
  GPC : Option (List ℚ)
deriving DecidableEq

structure GpuData where
  status : Option GpuStatus
  freq : Option GpuFreq
deriving DecidableEq

/-- `jtop_stats["gpu"]`, whose single entry is again keyed `"gpu"`. -/
structure GpuOuter where
  gpu : Option GpuData
deriving DecidableEq

structure RamData where
  tot : Option ℚ
  used : Option ℚ
  free : Option ℚ
  buffers : Option ℚ
  cached : Option ℚ
  shared : Option ℚ
deriving DecidableEq

structure SwapData where
  tot : Option ℚ
  used : Option ℚ
  cached : Option ℚ
deriving DecidableEq

structure EmcData where
  cur : Option ℚ
  max : Option ℚ
  min : Option ℚ
deriving DecidableEq

structure MemoryData where
  RAM : Option RamData
  SWAP : Option SwapData
  EMC : Option EmcData
deriving DecidableEq

/-- One entry of `jtop_stats["temperature"]`. -/
structure TempInfo where
  temp : Option ℚ
  online : Option Bool
deriving DecidableEq

/-- One entry of `jtop_stats["power"]["rail"]`.  The `crit` field is a number
whose Python truthiness (`bool(crit_val)`) is nonzero-ness. -/
structure RailReading where
  online : Option Bool
  crit : Option ℚ
  volt : Option ℚ
  curr : Option ℚ
  power : Option ℚ
  avg : Option ℚ
  warn : Option ℚ
deriving DecidableEq

structure PowerTotal where
  power : Option ℚ
  avg : Option ℚ
deriving DecidableEq

structure PowerData where
  rail : Option (PyDict RailReading)
  tot : Option PowerTotal
deriving DecidableEq

structure PwmFan where
  speed : Option (List ℚ)
  rpm : Option (List ℚ)
  profile : Option String
  governor : Option String
  control : Option String
deriving DecidableEq

structure FanData where
  pwmfan : Option PwmFan
deriving DecidableEq

/-- A value in the flat summary-stats block or in a process row: a number or
a string. -/
inductive PyVal where
  | num (x : ℚ)
  | s (st : String)
deriving DecidableEq

/-- The snapshot dictionary assembled by `read_stats`, restricted to the keys
the mappers read, each wrapped in `Option` for the `.get` defaults. -/
structure Snapshot where
  cpu : Option CpuData
  gpu : Option GpuOuter
  memory : Option MemoryData
  power : Option PowerData
  temperature : Option (PyDict TempInfo)
  fan : Option FanData
  nvpmodel : Option String
  processes : Option (List (List PyVal))
  stats : Option (PyDict PyVal)
  uptime : Option ℚ
  jetson_clocks : Option Bool
deriving DecidableEq

/- ----------------------------------------------------------------------
Domain metric mappers (exporter.py, class JetsonExporter).
---------------------------------------------------------------------- -/

namespace JetsonExporter

/-- `JetsonExporter.__cpu` (exporter.py lines 34-89). -/
def cpu (cpu_data : Option CpuData) : List MetricFamily :=
  let cd := cpu_data.getD { cpu := none, total := none }
  let core_list := cd.cpu.getD []
  let coreFreqRows := core_list.enum.flatMap fun p =>
    if p.2.online.getD false then
      let freq := p.2.freq.getD { cur := none, min := none, max := none }
      [([toString p.1, "cur"], MVal.q (freq.cur.getD 0)),
       ([toString p.1, "min"], MVal.q (freq.min.getD 0)),
       ([toString p.1, "max"], MVal.q (freq.max.getD 0))]
    else []
  let coreUtilRows := core_list.enum.flatMap fun p =>
    if p.2.online.getD false then
      [([toString p.1, "user"], MVal.q (p.2.user.getD 0)),
       ([toString p.1, "nice"], MVal.q (p.2.nice.getD 0)),
       ([toString p.1, "system"], MVal.q (p.2.system.getD 0)),
       ([toString p.1, "idle"], MVal.q (p.2.idle.getD 0))]
    else []
  let totalRows :=
    match cd.total with
    | none => []
    | some t =>
      [(["total", "user"], MVal.q (t.user.getD 0)),
       (["total", "nice"], MVal.q (t.nice.getD 0)),
       (["total", "system"], MVal.q (t.system.getD 0)),
       (["total", "idle"], MVal.q (t.idle.getD 0))]
  [{ name := "cpu_Hz", documentation := "CPU frequency statistics per core",
     labels := ["core", "statistic"], unit := "Hz", rows := coreFreqRows },
   { name := "cpu_utilization_percent", documentation := "CPU usage percent per core and total",
     labels := ["core", "mode"], unit := "percent", rows := coreUtilRows ++ totalRows }]

/-- `JetsonExporter.__gpu` (lines 91-126). -/
def gpu (gpu_outer : Option GpuOuter) : List MetricFamily :=
  let gpu_data := (gpu_outer.getD { gpu := none }).gpu.getD { status := none, freq := none }
  let status := gpu_data.status.getD { load := none }
  let freq := gpu_data.freq.getD { cur := none, min := none, max := none, GPC := none }
  let load := status.load.getD 0
  let gpc := freq.GPC.getD []
  let baseFreqRows :=
    [(["integrated", "cur"], MVal.q (freq.cur.getD 0)),
     (["integrated", "min"], MVal.q (freq.min.getD 0)),
     (["integrated", "max"], MVal.q (freq.max.getD 0))]
  let freqRows :=
    match gpc with
    | [] => baseFreqRows
    | g :: _ => baseFreqRows ++ [(["integrated", "gpc0"], MVal.q g)]
  [{ name := "gpu_utilization_percent", documentation := "GPU load utilization percent from jtop",
     labels := ["gpu"], unit := "percent", rows := [(["integrated"], MVal.q load)] },
   { name := "gpu_frequency_hz", documentation := "GPU frequency statistics",
     labels := ["gpu", "statistic"], unit := "Hz", rows := freqRows }]

/-- `JetsonExporter.__ram` (lines 128-148). -/
def ram (memory : Option MemoryData) : List MetricFamily :=
  let ram_data := (memory.getD { RAM := none, SWAP := none, EMC := none }).RAM.getD
    { tot := none, used := none, free := none, buffers := none, cached := none, shared := none }
  [{ name := "ram", documentation := "Memory Statistics from Jetson Stats (unit: kB)",
     labels := ["statistic"], unit := "kB",
     rows := [(["total"], MVal.q (ram_data.tot.getD 0)),
              (["used"], MVal.q (ram_data.used.getD 0)),
              (["free"], MVal.q (ram_data.free.getD 0)),
              (["buffers"], MVal.q (ram_data.buffers.getD 0)),
              (["cached"], MVal.q (ram_data.cached.getD 0)),
              (["shared"], MVal.q (ram_data.shared.getD 0))] }]

/-- `JetsonExporter.__swap` (lines 150-164). -/
def swap (memory : Option MemoryData) : List MetricFamily :=
  let sw := (memory.getD { RAM := none, SWAP := none, EMC := none }).SWAP.getD
    { tot := none, used := none, cached := none }
  [{ name := "swap", documentation := "Swap Statistics from Jetson Stats",
     labels := ["statistic"], unit := "kB",
     rows := [(["total"], MVal.q (sw.tot.getD 0)),
              (["used"], MVal.q (sw.used.getD 0)),
              (["cached"], MVal.q (sw.cached.getD 0))] }]

/-- `JetsonExporter.__emc` (lines 166-180). -/
def emc (memory : Option MemoryData) : List MetricFamily :=
  let e := (memory.getD { RAM := none, SWAP := none, EMC := none }).EMC.getD
    { cur := none, max := none, min := none }
  [{ name := "emc", documentation := "EMC Statistics from Jetson Stats",
     labels := ["statistic"], unit := "Hz",
     rows := [(["cur"], MVal.q (e.cur.getD 0)),
              (["max"], MVal.q (e.max.getD 0)),
              (["min"], MVal.q (e.min.getD 0))] }]

/-- One row of `JetsonExporter.__temperature` (lines 195-199): default the
temperature to -999 and the online flag to false, then derive the
`system_critical` label as `str(not online or temp <= -255).lower()`. -/
def tempRow (p : String × TempInfo) : List String × MVal :=
  let temp := p.2.temp.getD (-999)
  let online := p.2.online.getD false
  let system_critical := pyBoolStr (!online || decide (temp ≤ -255))
  (["temp", p.1, system_critical], MVal.q temp)

/-- `JetsonExporter.__temperature` (lines 182-201). -/
def temperature (td : Option (PyDict TempInfo)) : List MetricFamily :=
  [{ name := "temperature",
     documentation := "Temperature Statistics from Jetson Stats (unit: C)",
     labels := ["statistic", "machine_part", "system_critical"], unit := "C",
     rows := (td.getD []).map tempRow }]

/-- One per-rail row of `JetsonExporter.__integrated_power_machine_parts`
(lines 244-255), for the gauge reading field `f`. -/
def railRow (f : RailReading → Option ℚ) (p : String × RailReading) : List String × MVal :=
  let online_val := p.2.online.getD false
  let crit_val := p.2.crit.getD 0
  ([p.1, pyBoolStr online_val, pyBoolStr (!(decide (crit_val = 0)))], MVal.q ((f p.2).getD 0))

/-- `JetsonExporter.__integrated_power_machine_parts` (lines 203-263). -/
def integrated_power_machine_parts (pd : Option PowerData) : List MetricFamily :=
  let power_data := (pd.getD { rail := none, tot := none }).rail.getD []
  [{ name := "power_voltage_millivolts", documentation := "Voltage per power rail",
     labels := ["machine_part", "online", "critical"], unit := "mV",
     rows := power_data.map (railRow (fun r => r.volt)) },
   { name := "power_current_milliamps", documentation := "Current per power rail",
     labels := ["machine_part", "online", "critical"], unit := "mA",
     rows := power_data.map (railRow (fun r => r.curr)) },
   { name := "power_consumption_milliwatts", documentation := "Instantaneous power per power rail",
     labels := ["machine_part", "online", "critical"], unit := "mW",
     rows := power_data.map (railRow (fun r => r.power)) },
   { name := "power_average_milliwatts", documentation := "Average power per power rail",
     labels := ["machine_part", "online", "critical"], unit := "mW",
     rows := power_data.map (railRow (fun r => r.avg)) },
   { name := "power_warn_threshold_milliwatts", documentation := "Warning threshold per power rail",
     labels := ["machine_part", "online", "critical"], unit := "mW",
     rows := power_data.map (railRow (fun r => r.warn)) }]

/-- `JetsonExporter.__integrated_power_total` (lines 265-288). -/
def integrated_power_total (pd : Option PowerData) : List MetricFamily :=
  let total_power := (pd.getD { rail := none, tot := none }).tot.getD { power := none, avg := none }
  [{ name := "power_consumption_milliwatts",
     documentation := "Total system power consumption (instantaneous)",
     labels := ["statistic"], unit := "mW",
     rows := [(["power"], MVal.q (total_power.power.getD 0))] },
   { name := "power_average_milliwatts",
     documentation := "Total system average power consumption",
     labels := ["statistic"], unit := "mW",
     rows := [(["avg_power"], MVal.q (total_power.avg.getD 0))] }]

/-- `JetsonExporter.__fan` (lines 290-327).  The code indexes `[0]` into the
`speed` and `rpm` lists after defaulting them to `[0]`; an explicitly present
empty list raises `IndexError`, modelled as `none`. -/
def fan (fo : Option FanData) : Option (List MetricFamily) :=
  let fan_data := (fo.getD { pwmfan := none }).pwmfan.getD
    { speed := none, rpm := none, profile := none, governor := none, control := none }
  let profile := fan_data.profile.getD "unknown"
  let governor := fan_data.governor.getD "unknown"
  let control := fan_data.control.getD "unknown"
  match (fan_data.speed.getD [0]).head?, (fan_data.rpm.getD [0]).head? with
  | some speed, some rpm =>
    some
      [{ name := "fan_speed_percent", documentation := "Fan PWM speed (percentage)",
         labels := ["fan"], unit := "percent", rows := [(["pwmfan"], MVal.q speed)] },
       { name := "fan_rpm", documentation := "Fan speed in RPM",
         labels := ["fan"], unit := "", rows := [(["pwmfan"], MVal.q rpm)] },
       { name := "fan_config_info", documentation := "Fan configuration info (profile, governor, control)",
         labels := ["fan", "profile", "governor", "control"], unit := "",
         rows := [(["pwmfan", profile, governor, control], MVal.q 1)] }]
  | _, _ => none

/-- `JetsonExporter.__nvpmodel` (lines 329-344): a falsy value (missing key,
or an empty string) short-circuits to an empty family list. -/
def nvpmodel (nvp : Option String) : List MetricFamily :=
  match nvp with
  | none => []
  | some s =>
    if s == "" then []
    else
      [{ name := "nvpmodel_info", documentation := "Current NVPModel power mode",
         labels := ["model"], unit := "", rows := [([s], MVal.q 1)] }]

/-- The value `JetsonExporter.__disk` passes for one statistic row (lines
359-362): `disk_data.get(stat, 0)` on the mount-point-keyed dictionary
returned by `get_storage_info`, so a hit yields a whole sub-dictionary and a
miss yields the default 0. -/
def diskVal (disk_data : PyDict (PyDict ℚ)) (stat : String) : MVal :=
  match pyGet disk_data stat with
  | none => MVal.q 0
  | some sub => MVal.pydict sub

/-- `JetsonExporter.__disk` (lines 346-364). -/
def disk (disk_data : PyDict (PyDict ℚ)) (disk_units : String) : List MetricFamily :=
  [{ name := "disk",
     documentation := "Local Storage Statistics from Jetson Stats (unit: " ++ disk_units ++ ")",
     labels := ["statistic"], unit := "GB",
     rows := [(["total"], diskVal disk_data "total"),
              (["used"], diskVal disk_data "used"),
              (["available"], diskVal disk_data "available"),
              (["available_no_root"], diskVal disk_data "available_no_root")] }]

/-- `JetsonExporter.__uptime` (lines 366-382). -/
def uptime (upt : Option ℚ) : List MetricFamily :=
  [{ name := "uptime", documentation := "Machine Uptime Statistics from Jetson Stats",
     labels := ["statistic"], unit := "s",
     rows := [(["alive"], MVal.q (upt.getD 0))] }]

end JetsonExporter

/- ----------------------------------------------------------------------
The flat summary-stats block: `JetsonExporter.__stats` (lines 384-470).
---------------------------------------------------------------------- -/

/-- Python `s.startswith(p)`, computed on the character lists. -/
def listIsStart : List Char → List Char → Bool
  | [], _ => true
  | _ :: _, [] => false
  | c :: cs, d :: ds => c == d && listIsStart cs ds

def strStartsWith (s p : String) : Bool :=
  listIsStart p.data s.data

/-- Strip leading and trailing whitespace, as Python `float` does before
parsing. -/
def pyStripChars (l : List Char) : List Char :=
  ((l.dropWhile Char.isWhitespace).reverse.dropWhile Char.isWhitespace).reverse

/-- Split a character list on the dot character (the decimal point). -/
def splitOnDot (l : List Char) : List (List Char) :=
  l.foldr
    (fun c acc =>
      if c = '.' then [] :: acc
      else
        match acc with
        | h :: t => (c :: h) :: t
        | [] => [[c]])
    [[]]

/-- Value of a nonempty all-digit character list. -/
def digitsNat : List Char → Option ℕ
  | [] => none
  | l => if l.all Char.isDigit then some (l.foldl (fun a c => 10 * a + (c.toNat - 48)) 0) else none

/-- Model of Python `float(string)` on the finite decimal-literal fragment:
optional surrounding whitespace, optional sign, digits with at most one
decimal point and at least one digit.  Anything else fails (`ValueError`). -/
def parseDec (s : String) : Option ℚ :=
  let t := pyStripChars s.data
  let sign : ℚ :=
    match t with
    | '-' :: _ => -1
    | _ => 1
  let body :=
    match t with
    | '-' :: rest => rest
    | '+' :: rest => rest
    | _ => t
  match splitOnDot body with
  | [ip] => (digitsNat ip).map fun n => sign * n
  | [ip, fp] =>
    if ip.isEmpty && fp.isEmpty then none
    else
      match (if ip.isEmpty then some 0 else digitsNat ip),
            (if fp.isEmpty then some 0 else digitsNat fp) with
      | some a, some b => some (sign * ((a : ℚ) + (b : ℚ) / (10 : ℚ) ^ fp.length))
      | _, _ => none
  | _ => none

/-- Python `float(val)` on a summary-stats or process-row value. -/
def pyFloat : PyVal → Option ℚ
  | PyVal.num x => some x
  | PyVal.s st => parseDec st

/-- Python `str(val)` (numbers rendered by `toString` in the model). -/
def pyValStr : PyVal → String
  | PyVal.num x => toString x
  | PyVal.s st => st

namespace JetsonExporter

/-- The engine-name tuple on exporter.py lines 440-444. -/
def engineNames : List String :=
  ["APE", "DLA0_CORE", "DLA0_FALCON", "DLA1_CORE", "DLA1_FALCON",
   "NVDEC", "NVENC", "NVJPG", "NVJPG1", "OFA", "PVA0_CPU_AXI",
   "PVA0_VPS", "SE", "VIC"]

/-- `key[n:].lower().replace(" ", "_")` used for fan and temperature keys. -/
def statsLabel (s : String) : String :=
  s.toLower.replace " " "_"

/-- Which of the six stats gauges a processed key contributes to. -/
inductive StatsTarget where
  | cpu
  | usage
  | engine
  | fanPwm
  | temp
  | power
deriving DecidableEq

/-- The recognised-key tests of the `elif` chain, in source order. -/
def recognizedKey (k : String) : Bool :=
  strStartsWith k "CPU" || ["RAM", "SWAP", "EMC", "GPU"].contains k ||
    engineNames.contains k || strStartsWith k "Fan " || strStartsWith k "Temp " ||
    strStartsWith k "Power "

/-- One iteration of the `__stats` loop body (lines 426-461).  The outer
`none` models an uncaught `ValueError` from `float(val)`; the inner `none`
models an unrecognised key falling through every `elif` with no row added.
Only the CPU branch wraps its `float(val)` in try/except. -/
def processStat (key : String) (val : PyVal) :
    Option (Option (StatsTarget × (List String × MVal))) :=
  if strStartsWith key "CPU" then
    match pyFloat val with
    | some x => some (some (StatsTarget.cpu, ([key.drop 3], MVal.q x)))
    | none => some (some (StatsTarget.cpu, ([key.drop 3], MVal.q 0)))
  else if ["RAM", "SWAP", "EMC", "GPU"].contains key then
    match pyFloat val with
    | some x => some (some (StatsTarget.usage, ([key], MVal.q x)))
    | none => none
  else if engineNames.contains key then
    some (some (StatsTarget.engine,
      ([key], MVal.q (if val = PyVal.s "OFF" then 0 else 1))))
  else if strStartsWith key "Fan " then
    match pyFloat val with
    | some x => some (some (StatsTarget.fanPwm, ([statsLabel (key.drop 4)], MVal.q x)))
    | none => none
  else if strStartsWith key "Temp " then
    match pyFloat val with
    | some x => some (some (StatsTarget.temp, ([statsLabel (key.drop 5)], MVal.q x)))
    | none => none
  else if strStartsWith key "Power " then
    match pyFloat val with
    | some x => some (some (StatsTarget.power, ([key.drop 6], MVal.q x)))
    | none => none
  else
    some none

/-- The rows accumulated by the six stats gauges, in iteration order. -/
structure StatsRows where
  cpu : List (List String × MVal)
  usage : List (List String × MVal)
  engine : List (List String × MVal)
  fanPwm : List (List String × MVal)
  temp : List (List String × MVal)
  power : List (List String × MVal)
deriving DecidableEq

/-- Add one produced row to its gauge. -/
def addStatsRow : StatsTarget → List String × MVal → StatsRows → StatsRows
  | StatsTarget.cpu, row, r => { r with cpu := row :: r.cpu }
  | StatsTarget.usage, row, r => { r with usage := row :: r.usage }
  | StatsTarget.engine, row, r => { r with engine := row :: r.engine }
  | StatsTarget.fanPwm, row, r => { r with fanPwm := row :: r.fanPwm }
  | StatsTarget.temp, row, r => { r with temp := row :: r.temp }
  | StatsTarget.power, row, r => { r with power := row :: r.power }

/-- The `for key, val in stats_data.items()` loop of `__stats`; `none` when
any iteration raises. -/
def statsLoop : List (String × PyVal) → Option StatsRows
  | [] => some { cpu := [], usage := [], engine := [], fanPwm := [], temp := [], power := [] }
  | (key, val) :: rest =>
    match processStat key val with
    | none => none
    | some act =>
      match statsLoop rest with
      | none => none
      | some r =>
        match act with
        | none => some r
        | some (t, row) => some (addStatsRow t row r)

/-- `JetsonExporter.__stats` (lines 384-470). -/
def stats (sd : Option (PyDict PyVal)) : Option (List MetricFamily) :=
  (statsLoop (sd.getD [])).map fun r =>
    [{ name := "stats_cpu_utilization_percent",
       documentation := "Per-CPU core utilization or 0 if OFF",
       labels := ["core"], unit := "", rows := r.cpu },
     { name := "stats_resource_usage_percent",
       documentation := "Usage percent for RAM, SWAP, GPU, EMC",
       labels := ["resource"], unit := "", rows := r.usage },
     { name := "stats_engine_status",
       documentation := "ON/OFF status for Jetson engines (1=ON, 0=OFF)",
       labels := ["engine"], unit := "", rows := r.engine },
     { name := "stats_fan_pwm_percent",
       documentation := "PWM value for Jetson cooling fans",
       labels := ["fan"], unit := "", rows := r.fanPwm },
     { name := "stats_temperature_celsius",
       documentation := "Temperature sensors from Jetson stats",
       labels := ["sensor"], unit := "celsius", rows := r.temp },
     { name := "stats_power_milliwatts",
       documentation := "Per-rail power consumption in milliwatts",
       labels := ["rail"], unit := "mW", rows := r.power }]

/-- A successfully parsed process row. -/
structure ProcParsed where
  pid : String
  user : String
  pname : String
  gpu : ℚ
  mem : ℚ
  rss : ℚ
deriving DecidableEq

/-- The try-block of `JetsonExporter.__processes` (lines 497-503): index
errors and float-parse errors make the row parse fail and the row is
skipped. -/
def parseProc (proc : List PyVal) : Option ProcParsed := do
  let p0 ← proc.get? 0
  let p1 ← proc.get? 1
  let plast ← proc.getLast?
  let g ← pyFloat (← proc.get? 6)
  let m ← pyFloat (← proc.get? 7)
  let rs ← pyFloat (← proc.get? 8)
  some { pid := pyValStr p0, user := pyValStr p1, pname := pyValStr plast,
         gpu := g, mem := m, rss := rs }

/-- `JetsonExporter.__processes` (lines 472-516). -/
def processes (ps : Option (List (List PyVal))) : List MetricFamily :=
  let parsed := (ps.getD []).filterMap parseProc
  [{ name := "process_gpu_usage_percent",
     documentation := "Per-process GPU usage percent from Jetson stats",
     labels := ["pid", "user", "name"], unit := "",
     rows := parsed.map fun t => ([t.pid, t.user, t.pname], MVal.q t.gpu) },
   { name := "process_memory_usage_kb",
     documentation := "Per-process memory usage in KB from Jetson stats",
     labels := ["pid", "user", "name"], unit := "",
     rows := parsed.map fun t => ([t.pid, t.user, t.pname], MVal.q t.mem) },
   { name := "process_memory_rss_kb",
     documentation := "Per-process resident memory (RSS) in KB from Jetson stats",
     labels := ["pid", "user", "name"], unit := "",
     rows := parsed.map fun t => ([t.pid, t.user, t.pname], MVal.q t.rss) }]

/-- `JetsonExporter.__jetson_clocks` (lines 518-532). -/
def jetson_clocks (jc : Option Bool) : List MetricFamily :=
  [{ name := "jetson_clocks",
     documentation := "Status of Jetson Clocks override (True if performance mode enabled)",
     labels := ["enabled"], unit := "",
     rows := [([pyBoolStr (jc.getD false)], MVal.q 1)] }]

/-- `JetsonExporter.__network_bandwidth` (lines 534-545). -/
def network_bandwidth (network : PyDict NetRates) : List MetricFamily :=
  [{ name := "network_bandwidth_bytes_per_second",
     documentation := "Network bandwidth usage per interface (bytes/sec)",
     labels := ["interface", "direction"], unit := "",
     rows := network.flatMap fun p =>
       [([p.1, "rx"], MVal.q p.2.rx_bytes_per_sec),
        ([p.1, "tx"], MVal.q p.2.tx_bytes_per_sec)] }]

/-- `JetsonExporter.collect` (lines 547-564): the sixteen mappers in source
order.  `none` models an exception escaping the generator (from `__fan` or
`__stats`). -/
def collect (snap : Snapshot) (disk_data : PyDict (PyDict ℚ)) (disk_units : String)
    (network : PyDict NetRates) : Option (List MetricFamily) :=
  match fan snap.fan, stats snap.stats with
  | some fanFams, some statsFams =>
    some (cpu snap.cpu ++ gpu snap.gpu ++ ram snap.memory ++ swap snap.memory ++
      emc snap.memory ++ temperature snap.temperature ++
      integrated_power_machine_parts snap.power ++ integrated_power_total snap.power ++
      fanFams ++ nvpmodel snap.nvpmodel ++ disk disk_data disk_units ++
      uptime snap.uptime ++ statsFams ++ processes snap.processes ++
      jetson_clocks snap.jetson_clocks ++ network_bandwidth network)
  | _, _ => none

end JetsonExporter

/- ----------------------------------------------------------------------
Auxiliary definitions used by the statements below.
---------------------------------------------------------------------- -/

/-- Python truthiness of the nvpmodel snapshot value (`if not nvpmodel`). -/
def nvpTruthy : Option String → Bool
  | none => false
  | some s => !(s == "")

/-- Family names emitted by the mappers that run before `__nvpmodel` in
`collect`, in order. -/
def collectNamesPre : List String :=
  ["cpu_Hz", "cpu_utilization_percent", "gpu_utilization_percent", "gpu_frequency_hz",
   "ram", "swap", "emc", "temperature",
   "power_voltage_millivolts", "power_current_milliamps", "power_consumption_milliwatts",
   "power_average_milliwatts", "power_warn_threshold_milliwatts",
   "power_consumption_milliwatts", "power_average_milliwatts",
   "fan_speed_percent", "fan_rpm", "fan_config_info"]

/-- Family names emitted by the mappers that run after `__nvpmodel` in
`collect`, in order. -/
def collectNamesPost : List String :=
  ["disk", "uptime",
   "stats_cpu_utilization_percent", "stats_resource_usage_percent", "stats_engine_status",
   "stats_fan_pwm_percent", "stats_temperature_celsius", "stats_power_milliwatts",
   "process_gpu_usage_percent", "process_memory_usage_kb", "process_memory_rss_kb",
   "jetson_clocks", "network_bandwidth_bytes_per_second"]

/-- A snapshot in which every domain is missing. -/
def emptySnap : Snapshot :=
  { cpu := none, gpu := none, memory := none, power := none, temperature := none,
    fan := none, nvpmodel := none, processes := none, stats := none, uptime := none,
    jetson_clocks := none }

/-- An otherwise empty snapshot carrying an nvpmodel value. -/
def sampleSnap : Snapshot :=
  { emptySnap with nvpmodel := some "MODE_15W" }

/-- Disk-usage map for a machine whose only partition is the root mount. -/
def rootUsage : String → PyDict ℚ := fun mp =>
  if mp == "/" then [("total", 2000000000), ("used", 1000000000), ("free", 1000000000)]
  else []

/-- Disk usage map of a machine with a single root partition of exactly one
billion bytes. -/
def gbUsage : String → PyDict ℚ := fun mp =>
  if mp == "/" then [("total", 1000000000)] else []

/- ----------------------------------------------------------------------
Association-list helper lemmas.
---------------------------------------------------------------------- -/

theorem pyGet_pySet_self {α : Type} (d : PyDict α) (k : String) (v : α) :
    pyGet (pySet d k v) k = some v := by
  induction d with
  | nil => simp [pySet, pyGet]
  | cons hd tl ih =>
    obtain ⟨k2, w⟩ := hd
    by_cases h : k2 = k
    · simp [pySet, pyGet, h]
    · simp [pySet, pyGet, h, ih]

theorem pyGet_pySet_other {α : Type} (d : PyDict α) (k k2 : String) (v : α)
    (h : k ≠ k2) : pyGet (pySet d k v) k2 = pyGet d k2 := by
  induction d with
  | nil => simp [pySet, pyGet, h]
  | cons hd tl ih =>
    obtain ⟨k3, w⟩ := hd
    by_cases h3 : k3 = k
    · subst h3
      simp [pySet, pyGet, h]
    · by_cases h4 : k3 = k2
      · subst h4
        simp [pySet, pyGet, h3]
      · simp [pySet, pyGet, h3, h4, ih]

theorem pySet_fresh {α : Type} (d : PyDict α) (k : String) (v : α)
    (h : pyGet d k = none) : pySet d k v = d ++ [(k, v)] := by
  induction d with
  | nil => simp [pySet]
  | cons hd tl ih =>
    obtain ⟨k2, w⟩ := hd
    simp only [pyGet, beq_iff_eq] at h
    by_cases h2 : k2 = k
    · simp [h2] at h
    · rw [if_neg h2] at h
      simp [pySet, h2, ih h]

/- ----------------------------------------------------------------------
Network rate lemmas.
---------------------------------------------------------------------- -/

theorem netRateLoop_isSome (prev : PyDict NetIOCounters) (interval : ℚ)
    (h : interval ≠ 0) :
    ∀ cur : PyDict NetIOCounters, (netRateLoop prev interval cur).isSome := by
  intro cur
  induction cur with
  | nil => simp [netRateLoop]
  | cons hd tl ih =>
    obtain ⟨k, v⟩ := hd
    simp only [netRateLoop]
    split
    · exact ih
    · rw [if_neg h]
      split
      · rename_i htl
        rw [htl] at ih
        simp at ih
      · simp

theorem netRateLoop_lookup (prev : PyDict NetIOCounters) (interval : ℚ)
    (h : interval ≠ 0) :
    ∀ (cur : PyDict NetIOCounters) (r : PyDict NetRates) (iface : String)
      (cs ps : NetIOCounters),
      netRateLoop prev interval cur = some r →
      pyGet cur iface = some cs → pyGet prev iface = some ps →
      pyGet r iface = some
        { rx_bytes_per_sec := (cs.bytes_recv - ps.bytes_recv) / interval
          tx_bytes_per_sec := (cs.bytes_sent - ps.bytes_sent) / interval } := by
  intro cur
  induction cur with
  | nil => intro r iface cs ps _ hc _; simp [pyGet] at hc
  | cons hd tl ih =>
    intro r iface cs ps hr hc hp
    obtain ⟨k, v⟩ := hd
    simp only [netRateLoop] at hr
    simp only [pyGet, beq_iff_eq] at hc
    split at hr
    · -- head interface absent from previous sample: it was skipped
      rename_i hpk
      by_cases hk : k = iface
      · subst hk
        rw [hpk] at hp
        exact Option.noConfusion hp
      · rw [if_neg hk] at hc
        exact ih r iface cs ps hr hc hp
    · rename_i prev_stats hpk
      rw [if_neg h] at hr
      split at hr
      · exact Option.noConfusion hr
      · rename_i tail htl
        obtain rfl := Option.some.inj hr
        by_cases hk : k = iface
        · subst hk
          rw [if_pos rfl] at hc
          obtain rfl : v = cs := Option.some.inj hc
          rw [hpk] at hp
          obtain rfl : prev_stats = ps := Option.some.inj hp
          simp [pyGet]
        · rw [if_neg hk] at hc
          simp only [pyGet, beq_iff_eq, if_neg hk]
          exact ih tail iface cs ps htl hc hp

theorem netRateLoop_skip (prev : PyDict NetIOCounters) (interval : ℚ) :
    ∀ (cur : PyDict NetIOCounters) (r : PyDict NetRates) (iface : String),
      netRateLoop prev interval cur = some r → pyGet prev iface = none →
      pyGet r iface = none := by
  intro cur
  induction cur with
  | nil =>
    intro r iface hr _
    obtain rfl : ([] : PyDict NetRates) = r := Option.some.inj hr
    simp [pyGet]
  | cons hd tl ih =>
    intro r iface hr hp
    obtain ⟨k, v⟩ := hd
    simp only [netRateLoop] at hr
    split at hr
    · exact ih r iface hr hp
    · rename_i prev_stats hpk
      have hk : k ≠ iface := by
        intro hkeq
        rw [hkeq, hp] at hpk
        exact Option.noConfusion hpk
      split at hr
      · exact Option.noConfusion hr
      · split at hr
        · exact Option.noConfusion hr
        · rename_i tail htl
          obtain rfl := Option.some.inj hr
          simp only [pyGet, beq_iff_eq, if_neg hk]
          exact ih tail iface htl hp

theorem get_network_bandwidth_some (st : NetState) (now : ℚ)
    (current : PyDict NetIOCounters) (result : PyDict NetRates) (st2 : NetState)
    (h : get_network_bandwidth st now current = some (result, st2)) :
    netRateLoop st.prev_net_io (now - st.last_net_time) current = some result ∧
    st2 = { prev_net_io := current, last_net_time := now } := by
  unfold get_network_bandwidth at h
  split at h
  · exact Option.noConfusion h
  · rename_i r2 hr2
    obtain h2 := Option.some.inj h
    injection h2 with h3 h4
    subst h3
    subst h4
    exact ⟨hr2, rfl⟩

/- ----------------------------------------------------------------------
Claim theorems: network rate computation.
---------------------------------------------------------------------- -/

/-- C1 (code bug): called with elapsed time zero and an interface present in
both the previous and the current counter sample, the rate computation
raises `ZeroDivisionError` (modelled as `none`) instead of returning a zero
rate for every shared interface. -/
theorem network_bandwidth_zero_elapsed_raises :
    get_network_bandwidth
      { prev_net_io := [("eth0", { bytes_recv := 100, bytes_sent := 200 })]
        last_net_time := 10 }
      10
      [("eth0", { bytes_recv := 150, bytes_sent := 260 })] = none := by
  simp [get_network_bandwidth, netRateLoop, pyGet]

/-- C6: for an interface present in both counter samples and a positive
elapsed time, the computed record is exactly the byte deltas divided by the
elapsed time; and an interface absent from the previous sample contributes
no rate entry that cycle. -/
theorem network_rate_exact (st : NetState) (now : ℚ)
    (current : PyDict NetIOCounters) (iface : String) (cs ps : NetIOCounters)
    (ht : 0 < now - st.last_net_time)
    (hcur : pyGet current iface = some cs)
    (hprev : pyGet st.prev_net_io iface = some ps) :
    (∃ result st2, get_network_bandwidth st now current = some (result, st2) ∧
      pyGet result iface = some
        { rx_bytes_per_sec := (cs.bytes_recv - ps.bytes_recv) / (now - st.last_net_time)
          tx_bytes_per_sec := (cs.bytes_sent - ps.bytes_sent) / (now - st.last_net_time) }) ∧
    (∀ iface2 result st2, pyGet st.prev_net_io iface2 = none →
      get_network_bandwidth st now current = some (result, st2) →
      pyGet result iface2 = none) := by
  have hne : now - st.last_net_time ≠ 0 := ne_of_gt ht
  constructor
  · have hsome := netRateLoop_isSome st.prev_net_io _ hne current
    obtain ⟨r, hr⟩ := Option.isSome_iff_exists.mp hsome
    refine ⟨r, { prev_net_io := current, last_net_time := now }, ?_, ?_⟩
    · simp [get_network_bandwidth, hr]
    · exact netRateLoop_lookup _ _ hne current r iface cs ps hr hcur hprev
  · intro iface2 result st2 hnone hgnb
    obtain ⟨hloop, _⟩ := get_network_bandwidth_some st now current result st2 hgnb
    exact netRateLoop_skip _ _ current result iface2 hloop hnone

/-- C6 witness: two samples for eth0 taken 2 seconds apart, byte counts 1 to
10 received and 2 to 4 sent. -/
theorem network_rate_exact_witness :
    ((0 : ℚ) < 2 - (0 : ℚ)) ∧
    pyGet [("eth0", ({ bytes_recv := 10, bytes_sent := 4 } : NetIOCounters))] "eth0" =
      some { bytes_recv := 10, bytes_sent := 4 } ∧
    pyGet [("eth0", ({ bytes_recv := 1, bytes_sent := 2 } : NetIOCounters))] "eth0" =
      some { bytes_recv := 1, bytes_sent := 2 } ∧
    ((∃ result st2,
        get_network_bandwidth
          { prev_net_io := [("eth0", { bytes_recv := 1, bytes_sent := 2 })]
            last_net_time := 0 }
          2 [("eth0", { bytes_recv := 10, bytes_sent := 4 })] = some (result, st2) ∧
        pyGet result "eth0" = some
          { rx_bytes_per_sec := (10 - 1) / (2 - 0)
            tx_bytes_per_sec := (4 - 2) / (2 - 0) }) ∧
     (∀ iface2 result st2,
        pyGet ({ prev_net_io := [("eth0", { bytes_recv := 1, bytes_sent := 2 })]
                 last_net_time := 0 } : NetState).prev_net_io iface2 = none →
        get_network_bandwidth
          { prev_net_io := [("eth0", { bytes_recv := 1, bytes_sent := 2 })]
            last_net_time := 0 }
          2 [("eth0", { bytes_recv := 10, bytes_sent := 4 })] = some (result, st2) →
        pyGet result iface2 = none)) :=
  ⟨by norm_num, by simp [pyGet], by simp [pyGet],
   network_rate_exact
     { prev_net_io := [("eth0", { bytes_recv := 1, bytes_sent := 2 })], last_net_time := 0 }
     2 [("eth0", { bytes_recv := 10, bytes_sent := 4 })] "eth0"
     { bytes_recv := 10, bytes_sent := 4 } { bytes_recv := 1, bytes_sent := 2 }
     (by norm_num) (by simp [pyGet]) (by simp [pyGet])⟩

/-- C7 counterexample: a call with elapsed time zero and a shared interface
raises, so the stored previous counters are NOT replaced by the current
sample — the update is not unconditional. -/
theorem net_state_not_updated_on_raise :
    netStateAfter
      { prev_net_io := [("eth0", { bytes_recv := 100, bytes_sent := 200 })]
        last_net_time := 10 }
      10 [("eth0", { bytes_recv := 150, bytes_sent := 260 })] =
      { prev_net_io := [("eth0", { bytes_recv := 100, bytes_sent := 200 })]
        last_net_time := 10 } ∧
    netStateAfter
      { prev_net_io := [("eth0", { bytes_recv := 100, bytes_sent := 200 })]
        last_net_time := 10 }
      10 [("eth0", { bytes_recv := 150, bytes_sent := 260 })] ≠
      { prev_net_io := [("eth0", { bytes_recv := 150, bytes_sent := 260 })]
        last_net_time := 10 } := by
  constructor
  · simp [netStateAfter, get_network_bandwidth, netRateLoop, pyGet]
  · simp only [netStateAfter, get_network_bandwidth, netRateLoop, pyGet]
    norm_num [NetState.mk.injEq, NetIOCounters.mk.injEq]

/-- C7 amended: after every call that returns normally, the stored state is
exactly the current sample and timestamp; consequently an interface present
in this cycle's sample and in the next cycle's sample, with positive elapsed
time, gets a rate entry in the next cycle. -/
theorem net_state_updated_on_success (st : NetState) (now : ℚ)
    (current : PyDict NetIOCounters) (result : PyDict NetRates) (st2 : NetState)
    (h : get_network_bandwidth st now current = some (result, st2)) :
    st2 = { prev_net_io := current, last_net_time := now } ∧
    (∀ (iface : String) (now2 : ℚ) (current2 : PyDict NetIOCounters),
      (pyGet current iface).isSome → (pyGet current2 iface).isSome →
      0 < now2 - now →
      ∃ result2 st3, get_network_bandwidth st2 now2 current2 = some (result2, st3) ∧
        (pyGet result2 iface).isSome) := by
  obtain ⟨hloop, hst⟩ := get_network_bandwidth_some st now current result st2 h
  subst hst
  refine ⟨rfl, ?_⟩
  intro iface now2 current2 h1 h2 hpos
  have hne : now2 - now ≠ 0 := ne_of_gt hpos
  obtain ⟨cs, hcs⟩ := Option.isSome_iff_exists.mp h2
  obtain ⟨ps, hps⟩ := Option.isSome_iff_exists.mp h1
  have hsome := netRateLoop_isSome current (now2 - now) hne current2
  obtain ⟨r2, hr2⟩ := Option.isSome_iff_exists.mp hsome
  refine ⟨r2, { prev_net_io := current2, last_net_time := now2 }, ?_, ?_⟩
  · simp [get_network_bandwidth, hr2]
  · have hl := netRateLoop_lookup current (now2 - now) hne current2 r2 iface cs ps hr2 hcs hps
    simp [hl]

/-- C7 amended witness: a first successful call installs the current sample
as history; a second call 1 second later produces a rate row for the
persisting interface. -/
theorem net_state_updated_on_success_witness :
    (get_network_bandwidth { prev_net_io := [], last_net_time := 0 } 1
        [("wlan0", { bytes_recv := 5, bytes_sent := 6 })] =
      some ([], { prev_net_io := [("wlan0", { bytes_recv := 5, bytes_sent := 6 })]
                  last_net_time := 1 })) ∧
    (({ prev_net_io := [("wlan0", { bytes_recv := 5, bytes_sent := 6 })]
        last_net_time := 1 } : NetState) =
      { prev_net_io := [("wlan0", { bytes_recv := 5, bytes_sent := 6 })]
        last_net_time := 1 } ∧
     (∀ (iface : String) (now2 : ℚ) (current2 : PyDict NetIOCounters),
        (pyGet [("wlan0", ({ bytes_recv := 5, bytes_sent := 6 } : NetIOCounters))] iface).isSome →
        (pyGet current2 iface).isSome → 0 < now2 - 1 →
        ∃ result2 st3,
          get_network_bandwidth
            { prev_net_io := [("wlan0", { bytes_recv := 5, bytes_sent := 6 })]
              last_net_time := 1 } now2 current2 = some (result2, st3) ∧
          (pyGet result2 iface).isSome)) :=
  ⟨by simp [get_network_bandwidth, netRateLoop, pyGet],
   net_state_updated_on_success { prev_net_io := [], last_net_time := 0 } 1
     [("wlan0", { bytes_recv := 5, bytes_sent := 6 })] []
     { prev_net_io := [("wlan0", { bytes_recv := 5, bytes_sent := 6 })], last_net_time := 1 }
     (by simp [get_network_bandwidth, netRateLoop, pyGet])⟩

/- ----------------------------------------------------------------------
Storage lemmas.
---------------------------------------------------------------------- -/

theorem pyGet_append_none {α : Type} (d1 d2 : PyDict α) (k : String)
    (h : pyGet d1 k = none) : pyGet (d1 ++ d2) k = pyGet d2 k := by
  induction d1 with
  | nil => simp
  | cons hd tl ih =>
    obtain ⟨k2, w⟩ := hd
    simp only [pyGet, beq_iff_eq] at h ⊢
    by_cases h2 : k2 = k
    · simp [h2] at h
    · rw [if_neg h2] at h
      rw [if_neg h2]
      exact ih h

theorem storeMetrics_fresh :
    ∀ (du d : PyDict ℚ),
      (∀ m ∈ du.map Prod.fst, pyGet d m = none) → (du.map Prod.fst).Nodup →
      storeMetrics d du = d ++ du.map (fun p => (p.1, p.2 / 1000000000)) := by
  intro du
  induction du with
  | nil => intro d _ _; simp [storeMetrics]
  | cons hd tl ih =>
    intro d hfresh hnd
    obtain ⟨m, v⟩ := hd
    simp only [List.map_cons, List.nodup_cons] at hnd
    obtain ⟨hnotin, hndtl⟩ := hnd
    have hmd : pyGet d m = none := hfresh m (by simp)
    simp only [storeMetrics]
    rw [pySet_fresh d m _ hmd]
    have h1 : ∀ m2 ∈ tl.map Prod.fst, pyGet (d ++ [(m, v / 1000000000)]) m2 = none := by
      intro m2 hm2
      have hne : m ≠ m2 := fun he => hnotin (he ▸ hm2)
      rw [pyGet_append_none _ _ _ (hfresh m2 (by simp [hm2]))]
      simp [pyGet, hne]
    rw [ih _ h1 hndtl]
    simp

theorem storageLoop_preserve (usage : String → PyDict ℚ) :
    ∀ (parts : List DiskPartition) (storage : PyDict (PyDict ℚ)) (mp : String),
      mp ∉ parts.map DiskPartition.mountpoint →
      pyGet (storageLoop usage parts storage) mp = pyGet storage mp := by
  intro parts
  induction parts with
  | nil => intro storage mp _; rfl
  | cons part rest ih =>
    intro storage mp hmp
    simp only [List.map_cons, List.mem_cons, not_or] at hmp
    obtain ⟨hne, hrest⟩ := hmp
    simp only [storageLoop]
    rw [ih _ mp hrest]
    rw [pyGet_pySet_other _ _ _ _ (Ne.symm hne)]
    by_cases hh : pyHas storage part.mountpoint
    · rw [if_pos hh]
    · rw [if_neg hh, pyGet_pySet_other _ _ _ _ (Ne.symm hne)]

theorem storageLoop_get (usage : String → PyDict ℚ) :
    ∀ (parts : List DiskPartition) (storage : PyDict (PyDict ℚ)) (p : DiskPartition),
      p ∈ parts →
      (parts.map DiskPartition.mountpoint).Nodup →
      (∀ q ∈ parts, pyGet storage q.mountpoint = none) →
      (∀ q ∈ parts, ((usage q.mountpoint).map Prod.fst).Nodup) →
      pyGet (storageLoop usage parts storage) p.mountpoint =
        some ((usage p.mountpoint).map fun r => (r.1, r.2 / 1000000000)) := by
  intro parts
  induction parts with
  | nil => intro storage p hp; exact absurd hp (by simp)
  | cons part rest ih =>
    intro storage p hp hnd hfresh hund
    simp only [List.map_cons, List.nodup_cons] at hnd
    obtain ⟨hnotin, hndrest⟩ := hnd
    simp only [storageLoop]
    by_cases hpp : p.mountpoint = part.mountpoint
    · rw [hpp]
      rw [storageLoop_preserve usage rest _ part.mountpoint hnotin]
      have hf : pyGet storage part.mountpoint = none := hfresh part (by simp)
      have hhas : pyHas storage part.mountpoint = false := by simp [pyHas, hf]
      rw [if_neg (by simp [hhas])]
      have hsm := storeMetrics_fresh (usage part.mountpoint) []
        (fun m _ => rfl) (hund part (by simp))
      rw [pyGet_pySet_self]
      have hgd : pyGetD (pySet storage part.mountpoint []) part.mountpoint [] = [] := by
        simp [pyGetD, pyGet_pySet_self]
      rw [hgd, hsm]
      simp
    · have hprest : p ∈ rest := by
        cases hp with
        | head => exact absurd rfl hpp
        | tail _ h => exact h
      apply ih _ p hprest hndrest ?_ (fun q hq => hund q (List.mem_cons_of_mem _ hq))
      intro q hq
      have hqne : q.mountpoint ≠ part.mountpoint := by
        intro he
        exact hnotin (he ▸ List.mem_map_of_mem DiskPartition.mountpoint hq)
      rw [pyGet_pySet_other _ _ _ _ (Ne.symm hqne)]
      by_cases hh : pyHas storage part.mountpoint
      · rw [if_pos hh]
        exact hfresh q (List.mem_cons_of_mem _ hq)
      · rw [if_neg hh, pyGet_pySet_other _ _ _ _ (Ne.symm hqne)]
        exact hfresh q (List.mem_cons_of_mem _ hq)

/- ----------------------------------------------------------------------
Claim theorems: storage normalisation and the disk metric.
---------------------------------------------------------------------- -/

/-- C9: the unit label is the constant "GB" and, for every listed partition,
every numeric field of its usage appears divided by one billion. -/
theorem get_storage_info_gb (usage : String → PyDict ℚ) (partitions : List DiskPartition)
    (p : DiskPartition) (hp : p ∈ partitions)
    (hnd : (partitions.map DiskPartition.mountpoint).Nodup)
    (hu : ∀ q ∈ partitions, ((usage q.mountpoint).map Prod.fst).Nodup) :
    (get_storage_info usage partitions).2 = "GB" ∧
    pyGet (get_storage_info usage partitions).1 p.mountpoint =
      some ((usage p.mountpoint).map fun r => (r.1, r.2 / 1000000000)) := by
  refine ⟨rfl, ?_⟩
  exact storageLoop_get usage partitions [] p hp hnd (fun q _ => rfl) hu

/-- C9 witness: a byte count of exactly one billion converts to a display
value of exactly 1. -/
theorem get_storage_info_gb_witness :
    ((⟨"/"⟩ : DiskPartition) ∈ [(⟨"/"⟩ : DiskPartition)]) ∧
    (([(⟨"/"⟩ : DiskPartition)].map DiskPartition.mountpoint).Nodup) ∧
    (∀ q ∈ [(⟨"/"⟩ : DiskPartition)], ((gbUsage q.mountpoint).map Prod.fst).Nodup) ∧
    (get_storage_info gbUsage [⟨"/"⟩]).2 = "GB" ∧
    pyGet (get_storage_info gbUsage [⟨"/"⟩]).1 "/" = some [("total", 1)] := by
  refine ⟨by simp, by simp, by simp [gbUsage], ?_, ?_⟩
  · exact (get_storage_info_gb gbUsage [⟨"/"⟩] ⟨"/"⟩ (by simp) (by simp)
      (by simp [gbUsage])).1
  · have h := (get_storage_info_gb gbUsage [⟨"/"⟩] ⟨"/"⟩ (by simp) (by simp)
      (by simp [gbUsage])).2
    rw [h]
    norm_num [gbUsage]

/-- C2 (code bug): with a single root partition whose usage is known, the
disk metric ignores the root mount reading entirely: `__disk` looks the
statistic names up among the mount-point keys, finds none, and emits 0 for
every row. -/
theorem disk_metric_ignores_root_mount :
    (get_storage_info rootUsage [⟨"/"⟩]).1 =
      [("/", [("total", 2), ("used", 1), ("free", 1)])] ∧
    JetsonExporter.disk (get_storage_info rootUsage [⟨"/"⟩]).1 "GB" =
      [{ name := "disk",
         documentation := "Local Storage Statistics from Jetson Stats (unit: GB)",
         labels := ["statistic"], unit := "GB",
         rows := [(["total"], MVal.q 0), (["used"], MVal.q 0),
                  (["available"], MVal.q 0), (["available_no_root"], MVal.q 0)] }] := by
  have h1 : (get_storage_info rootUsage [⟨"/"⟩]).1 =
      [("/", [("total", 2), ("used", 1), ("free", 1)])] := by
    norm_num [get_storage_info, storageLoop, storeMetrics, rootUsage,
      pySet, pyGet, pyGetD, pyHas]
    simp
  refine ⟨h1, ?_⟩
  rw [h1]
  simp [JetsonExporter.disk, JetsonExporter.diskVal, pyGet]

/- ----------------------------------------------------------------------
Claim theorems: temperature rows and fan families.
---------------------------------------------------------------------- -/

/-- C8: the emitted `system_critical` label is "true" exactly when the
sensor is offline or its temperature is at or below -255; in particular
-999/offline is critical and 45/online is not. -/
theorem temperature_critical_label_iff :
    ∀ (td : PyDict TempInfo) (part : String) (t : ℚ) (o : Bool),
      (JetsonExporter.temperature (some td)).map MetricFamily.rows =
        [td.map JetsonExporter.tempRow] ∧
      (JetsonExporter.tempRow (part, { temp := some t, online := some o }) =
          (["temp", part, "true"], MVal.q t) ↔ (o = false ∨ t ≤ -255)) ∧
      (JetsonExporter.tempRow (part, { temp := some t, online := some o }) =
          (["temp", part, "false"], MVal.q t) ↔ ¬(o = false ∨ t ≤ -255)) ∧
      JetsonExporter.tempRow (part, { temp := some (-999 : ℚ), online := some false }) =
        (["temp", part, "true"], MVal.q (-999)) ∧
      JetsonExporter.tempRow (part, { temp := some (45 : ℚ), online := some true }) =
        (["temp", part, "false"], MVal.q 45) := by
  intro td part t o
  refine ⟨by simp [JetsonExporter.temperature], ?_, ?_, ?_, ?_⟩
  · cases o <;> by_cases h : t ≤ -255 <;>
      simp [JetsonExporter.tempRow, pyBoolStr, h]
  · cases o <;> by_cases h : t ≤ -255 <;>
      simp [JetsonExporter.tempRow, pyBoolStr, h]
  · norm_num [JetsonExporter.tempRow, pyBoolStr]
  · norm_num [JetsonExporter.tempRow, pyBoolStr]

/-- C10: a sensor entry with no "temp" field is emitted with the default
value -999 and with `system_critical` "true", whatever the online flag says
(the -999 default is below the -255 sentinel). -/
theorem temperature_missing_temp_defaults :
    ∀ (part : String) (ob : Option Bool),
      JetsonExporter.tempRow (part, { temp := none, online := ob }) =
        (["temp", part, "true"], MVal.q (-999)) := by
  intro part ob
  cases ob with
  | none => norm_num [JetsonExporter.tempRow, pyBoolStr]
  | some b => cases b <;> norm_num [JetsonExporter.tempRow, pyBoolStr]

/-- C3 counterexample: on a snapshot with no fan domain, each of the three
fan families is emitted with one defaulted row, not with zero rows. -/
theorem fan_absent_emits_defaulted_rows :
    (JetsonExporter.fan none).map (fun l => l.map fun f => f.rows.length) = some [1, 1, 1] ∧
    (JetsonExporter.fan none).map (fun l => l.map fun f => f.rows.length) ≠ some [0, 0, 0] := by
  constructor <;> simp [JetsonExporter.fan]

/-- C3 amended: a snapshot lacking the fan domain yields the three fan
families each with exactly one defaulted row: speed 0, rpm 0, and a config
row labelled unknown/unknown/unknown with value 1. -/
theorem fan_absent_one_default_row_each :
    ∀ fo : Option FanData, fo = none →
      JetsonExporter.fan fo = some
        [{ name := "fan_speed_percent", documentation := "Fan PWM speed (percentage)",
           labels := ["fan"], unit := "percent", rows := [(["pwmfan"], MVal.q 0)] },
         { name := "fan_rpm", documentation := "Fan speed in RPM",
           labels := ["fan"], unit := "", rows := [(["pwmfan"], MVal.q 0)] },
         { name := "fan_config_info",
           documentation := "Fan configuration info (profile, governor, control)",
           labels := ["fan", "profile", "governor", "control"], unit := "",
           rows := [(["pwmfan", "unknown", "unknown", "unknown"], MVal.q 1)] }] := by
  intro fo h
  subst h
  simp [JetsonExporter.fan]

/-- C3 amended witness. -/
theorem fan_absent_one_default_row_each_witness :
    ((none : Option FanData) = none) ∧
    JetsonExporter.fan none = some
      [{ name := "fan_speed_percent", documentation := "Fan PWM speed (percentage)",
         labels := ["fan"], unit := "percent", rows := [(["pwmfan"], MVal.q 0)] },
       { name := "fan_rpm", documentation := "Fan speed in RPM",
         labels := ["fan"], unit := "", rows := [(["pwmfan"], MVal.q 0)] },
       { name := "fan_config_info",
         documentation := "Fan configuration info (profile, governor, control)",
         labels := ["fan", "profile", "governor", "control"], unit := "",
         rows := [(["pwmfan", "unknown", "unknown", "unknown"], MVal.q 1)] }] :=
  ⟨rfl, fan_absent_one_default_row_each none rfl⟩

/- ----------------------------------------------------------------------
Summary-stats lemmas.
---------------------------------------------------------------------- -/

theorem statsLoop_append_skip (k : String) (v : PyVal)
    (h : JetsonExporter.processStat k v = some none) :
    ∀ (pre post : List (String × PyVal)),
      JetsonExporter.statsLoop (pre ++ (k, v) :: post) =
        JetsonExporter.statsLoop (pre ++ post) := by
  intro pre
  induction pre with
  | nil =>
    intro post
    simp only [List.nil_append, JetsonExporter.statsLoop, h]
    cases JetsonExporter.statsLoop post <;> rfl
  | cons hd pre ih =>
    intro post
    obtain ⟨k2, v2⟩ := hd
    simp only [List.cons_append, JetsonExporter.statsLoop, List.append_eq]
    rw [ih post]

theorem statsLoop_append_raise (k : String) (v : PyVal)
    (h : JetsonExporter.processStat k v = none) :
    ∀ (pre post : List (String × PyVal)),
      JetsonExporter.statsLoop (pre ++ (k, v) :: post) = none := by
  intro pre
  induction pre with
  | nil =>
    intro post
    simp only [List.nil_append, JetsonExporter.statsLoop, h]
  | cons hd pre ih =>
    intro post
    obtain ⟨k2, v2⟩ := hd
    simp only [List.cons_append, JetsonExporter.statsLoop, List.append_eq]
    rw [ih post]
    cases JetsonExporter.processStat k2 v2 <;> rfl

theorem statsLoop_cons_sub (k : String) (v : PyVal) (l : List (String × PyVal))
    (r : JetsonExporter.StatsRows)
    (h : JetsonExporter.statsLoop ((k, v) :: l) = some r) :
    ∃ r2, JetsonExporter.statsLoop l = some r2 ∧ ∀ row ∈ r2.cpu, row ∈ r.cpu := by
  simp only [JetsonExporter.statsLoop] at h
  split at h
  · exact Option.noConfusion h
  · rename_i act hact
    split at h
    · exact Option.noConfusion h
    · rename_i r2 hl
      refine ⟨r2, hl, ?_⟩
      split at h
      · obtain rfl := Option.some.inj h
        exact fun row hrow => hrow
      · rename_i t row0
        obtain rfl := Option.some.inj h
        intro row hrow
        cases t <;> simp only [JetsonExporter.addStatsRow] <;>
          first
          | exact List.mem_cons_of_mem _ hrow
          | exact hrow

theorem statsLoop_cpu_default_row (k : String) (v : PyVal)
    (hcpu : strStartsWith k "CPU" = true) (hval : pyFloat v = none) :
    ∀ (pre post : List (String × PyVal)) (r : JetsonExporter.StatsRows),
      JetsonExporter.statsLoop (pre ++ (k, v) :: post) = some r →
      ([k.drop 3], MVal.q 0) ∈ r.cpu := by
  have hps : JetsonExporter.processStat k v =
      some (some (JetsonExporter.StatsTarget.cpu, ([k.drop 3], MVal.q 0))) := by
    simp [JetsonExporter.processStat, hcpu, hval]
  intro pre
  induction pre with
  | nil =>
    intro post r h
    simp only [List.nil_append, JetsonExporter.statsLoop, hps] at h
    split at h
    · exact Option.noConfusion h
    · rename_i r2 hl
      obtain rfl := Option.some.inj h
      simp [JetsonExporter.addStatsRow]
  | cons hd pre ih =>
    intro post r h
    obtain ⟨k2, v2⟩ := hd
    rw [List.cons_append] at h
    obtain ⟨r2, hl, hsub⟩ := statsLoop_cons_sub k2 v2 _ r h
    exact hsub _ (ih post r2 hl)

theorem processStat_raises (k : String) (v : PyVal)
    (h1 : strStartsWith k "CPU" = false) (hval : pyFloat v = none)
    (h2 : ["RAM", "SWAP", "EMC", "GPU"].contains k = true ∨
      (["RAM", "SWAP", "EMC", "GPU"].contains k = false ∧
       JetsonExporter.engineNames.contains k = false ∧
       (strStartsWith k "Fan " = true ∨
        (strStartsWith k "Fan " = false ∧
         (strStartsWith k "Temp " = true ∨
          (strStartsWith k "Temp " = false ∧ strStartsWith k "Power " = true)))))) :
    JetsonExporter.processStat k v = none := by
  have hcpuProp : ¬(strStartsWith k "CPU" = true) := by simp [h1]
  unfold JetsonExporter.processStat
  rw [if_neg hcpuProp]
  rcases h2 with husage | ⟨hus, heng, hfan | ⟨hfanf, htemp | ⟨htempf, hpow⟩⟩⟩
  · rw [if_pos husage]
    simp [hval]
  · rw [if_neg (by simp only [hus]; exact Bool.false_ne_true), if_neg (by simp only [heng]; exact Bool.false_ne_true), if_pos hfan]
    simp [hval]
  · rw [if_neg (by simp only [hus]; exact Bool.false_ne_true), if_neg (by simp only [heng]; exact Bool.false_ne_true), if_neg (by simp [hfanf]),
      if_pos htemp]
    simp [hval]
  · rw [if_neg (by simp only [hus]; exact Bool.false_ne_true), if_neg (by simp only [heng]; exact Bool.false_ne_true), if_neg (by simp [hfanf]),
      if_neg (by simp [htempf]), if_pos hpow]
    simp [hval]

theorem recognizedKey_skip (k : String) (v : PyVal)
    (h : JetsonExporter.recognizedKey k = false) :
    JetsonExporter.processStat k v = some none := by
  simp only [JetsonExporter.recognizedKey, Bool.or_eq_false_iff] at h
  obtain ⟨⟨⟨⟨⟨hcpu, hus⟩, heng⟩, hfan⟩, htemp⟩, hpow⟩ := h
  unfold JetsonExporter.processStat
  rw [if_neg (by simp [hcpu]), if_neg (by simp only [hus]; exact Bool.false_ne_true), if_neg (by simp only [heng]; exact Bool.false_ne_true),
    if_neg (by simp [hfan]), if_neg (by simp [htemp]), if_neg (by simp [hpow])]

/- ----------------------------------------------------------------------
Claim theorems: the summary-stats block.
---------------------------------------------------------------------- -/

/-- C5 counterexample: a non-numeric value under the recognized key "GPU"
makes the whole block raise (`float(val)` is not guarded there), rather
than yielding a 0 row. -/
theorem stats_gpu_parse_failure_aborts :
    JetsonExporter.stats (some [("GPU", PyVal.s "abc")]) = none := by
  have hps : JetsonExporter.processStat "GPU" (PyVal.s "abc") = none := by
    have h1 : strStartsWith "GPU" "CPU" = false := by decide
    have h2 : pyFloat (PyVal.s "abc") = none := by decide
    simp [JetsonExporter.processStat, h1, h2]
  simp [JetsonExporter.stats, JetsonExporter.statsLoop, hps]

/-- C5 amended: unrecognized keys are ignored; a CPU-prefixed key whose
value fails numeric parsing contributes a 0 row; for the other recognized
numeric keys (RAM/SWAP/EMC/GPU and the "Fan ", "Temp ", "Power " prefixes)
a value that fails numeric parsing raises and aborts the whole block. -/
theorem stats_key_handling_amended :
    (∀ (pre post : List (String × PyVal)) (k : String) (v : PyVal),
       JetsonExporter.recognizedKey k = false →
       JetsonExporter.statsLoop (pre ++ (k, v) :: post) =
         JetsonExporter.statsLoop (pre ++ post)) ∧
    (∀ (pre post : List (String × PyVal)) (k : String) (v : PyVal)
       (r : JetsonExporter.StatsRows),
       strStartsWith k "CPU" = true → pyFloat v = none →
       JetsonExporter.statsLoop (pre ++ (k, v) :: post) = some r →
       ([k.drop 3], MVal.q 0) ∈ r.cpu) ∧
    (∀ (pre post : List (String × PyVal)) (k : String) (v : PyVal),
       strStartsWith k "CPU" = false → pyFloat v = none →
       (["RAM", "SWAP", "EMC", "GPU"].contains k = true ∨
        (["RAM", "SWAP", "EMC", "GPU"].contains k = false ∧
         JetsonExporter.engineNames.contains k = false ∧
         (strStartsWith k "Fan " = true ∨
          (strStartsWith k "Fan " = false ∧
           (strStartsWith k "Temp " = true ∨
            (strStartsWith k "Temp " = false ∧ strStartsWith k "Power " = true)))))) →
       JetsonExporter.statsLoop (pre ++ (k, v) :: post) = none) := by
  refine ⟨?_, ?_, ?_⟩
  · intro pre post k v h
    exact statsLoop_append_skip k v (recognizedKey_skip k v h) pre post
  · intro pre post k v r hcpu hval h
    exact statsLoop_cpu_default_row k v hcpu hval pre post r h
  · intro pre post k v h1 hval h2
    exact statsLoop_append_raise k v (processStat_raises k v h1 hval h2) pre post

/-- C5 amended witness: the unrecognized key "XYZ" is dropped; the key
"CPU1" with unparseable value "abc" yields row core "1" value 0; the key
"GPU" with value "abc" aborts the block. -/
theorem stats_key_handling_amended_witness :
    (JetsonExporter.recognizedKey "XYZ" = false ∧
     JetsonExporter.statsLoop ([] ++ ("XYZ", PyVal.num 7) :: []) =
       JetsonExporter.statsLoop ([] ++ [])) ∧
    (strStartsWith "CPU1" "CPU" = true ∧ pyFloat (PyVal.s "abc") = none ∧
     JetsonExporter.statsLoop ([] ++ ("CPU1", PyVal.s "abc") :: []) =
       some { cpu := [(["1"], MVal.q 0)], usage := [], engine := [],
              fanPwm := [], temp := [], power := [] } ∧
     (["CPU1".drop 3], MVal.q 0) ∈
       ({ cpu := [(["1"], MVal.q 0)], usage := [], engine := [],
          fanPwm := [], temp := [], power := [] } : JetsonExporter.StatsRows).cpu) ∧
    (strStartsWith "GPU" "CPU" = false ∧
     JetsonExporter.statsLoop ([] ++ ("GPU", PyVal.s "abc") :: []) = none) := by
  have hxyz : JetsonExporter.recognizedKey "XYZ" = false := by decide
  have hcpu : strStartsWith "CPU1" "CPU" = true := by decide
  have hgpu : strStartsWith "GPU" "CPU" = false := by decide
  have habc : pyFloat (PyVal.s "abc") = none := by decide
  have hloop : JetsonExporter.statsLoop ([] ++ ("CPU1", PyVal.s "abc") :: []) =
      some { cpu := [(["1"], MVal.q 0)], usage := [], engine := [],
             fanPwm := [], temp := [], power := [] } := by
    have hps : JetsonExporter.processStat "CPU1" (PyVal.s "abc") =
        some (some (JetsonExporter.StatsTarget.cpu, (["1"], MVal.q 0))) := by
      have hdrop : "CPU1".drop 3 = "1" := by decide
      simp [JetsonExporter.processStat, hcpu, habc, hdrop]
    simp [JetsonExporter.statsLoop, hps, JetsonExporter.addStatsRow]
  refine ⟨⟨hxyz, stats_key_handling_amended.1 [] [] "XYZ" (PyVal.num 7) hxyz⟩,
    ⟨hcpu, habc, hloop, ?_⟩,
    ⟨hgpu, stats_key_handling_amended.2.2 [] [] "GPU" (PyVal.s "abc") hgpu habc
      (Or.inl (by decide))⟩⟩
  have hdrop : "CPU1".drop 3 = "1" := by decide
  have := stats_key_handling_amended.2.1 [] [] "CPU1" (PyVal.s "abc")
    { cpu := [(["1"], MVal.q 0)], usage := [], engine := [],
      fanPwm := [], temp := [], power := [] } hcpu habc hloop
  exact this

/- ----------------------------------------------------------------------
Family-name lemmas: each mapper emits a fixed set of family names.
---------------------------------------------------------------------- -/

theorem cpu_names (x : Option CpuData) :
    (JetsonExporter.cpu x).map MetricFamily.name =
      ["cpu_Hz", "cpu_utilization_percent"] := rfl

theorem gpu_names (x : Option GpuOuter) :
    (JetsonExporter.gpu x).map MetricFamily.name =
      ["gpu_utilization_percent", "gpu_frequency_hz"] := rfl

theorem ram_names (x : Option MemoryData) :
    (JetsonExporter.ram x).map MetricFamily.name = ["ram"] := rfl

theorem swap_names (x : Option MemoryData) :
    (JetsonExporter.swap x).map MetricFamily.name = ["swap"] := rfl

theorem emc_names (x : Option MemoryData) :
    (JetsonExporter.emc x).map MetricFamily.name = ["emc"] := rfl

theorem temperature_names (x : Option (PyDict TempInfo)) :
    (JetsonExporter.temperature x).map MetricFamily.name = ["temperature"] := rfl

theorem power_rails_names (x : Option PowerData) :
    (JetsonExporter.integrated_power_machine_parts x).map MetricFamily.name =
      ["power_voltage_millivolts", "power_current_milliamps",
       "power_consumption_milliwatts", "power_average_milliwatts",
       "power_warn_threshold_milliwatts"] := rfl

theorem power_total_names (x : Option PowerData) :
    (JetsonExporter.integrated_power_total x).map MetricFamily.name =
      ["power_consumption_milliwatts", "power_average_milliwatts"] := rfl

theorem fan_names (fo : Option FanData) (l : List MetricFamily)
    (h : JetsonExporter.fan fo = some l) :
    l.map MetricFamily.name = ["fan_speed_percent", "fan_rpm", "fan_config_info"] := by
  simp only [JetsonExporter.fan] at h
  split at h
  · obtain rfl := Option.some.inj h
    rfl
  · exact Option.noConfusion h

theorem stats_names (sd : Option (PyDict PyVal)) (l : List MetricFamily)
    (h : JetsonExporter.stats sd = some l) :
    l.map MetricFamily.name =
      ["stats_cpu_utilization_percent", "stats_resource_usage_percent",
       "stats_engine_status", "stats_fan_pwm_percent",
       "stats_temperature_celsius", "stats_power_milliwatts"] := by
  unfold JetsonExporter.stats at h
  cases hloop : JetsonExporter.statsLoop (sd.getD []) with
  | none => rw [hloop] at h; exact Option.noConfusion h
  | some r =>
    rw [hloop] at h
    simp only [Option.map_some'] at h
    obtain rfl := Option.some.inj h
    rfl

theorem nvpmodel_names (nvp : Option String) :
    (JetsonExporter.nvpmodel nvp).map MetricFamily.name =
      if nvpTruthy nvp then ["nvpmodel_info"] else [] := by
  cases nvp with
  | none => rfl
  | some s =>
    unfold JetsonExporter.nvpmodel nvpTruthy
    cases hb : s == "" <;> simp [hb]

theorem disk_names (dd : PyDict (PyDict ℚ)) (du : String) :
    (JetsonExporter.disk dd du).map MetricFamily.name = ["disk"] := rfl

theorem uptime_names (x : Option ℚ) :
    (JetsonExporter.uptime x).map MetricFamily.name = ["uptime"] := rfl

theorem processes_names (x : Option (List (List PyVal))) :
    (JetsonExporter.processes x).map MetricFamily.name =
      ["process_gpu_usage_percent", "process_memory_usage_kb",
       "process_memory_rss_kb"] := rfl

theorem clocks_names (x : Option Bool) :
    (JetsonExporter.jetson_clocks x).map MetricFamily.name = ["jetson_clocks"] := rfl

theorem network_names (x : PyDict NetRates) :
    (JetsonExporter.network_bandwidth x).map MetricFamily.name =
      ["network_bandwidth_bytes_per_second"] := rfl

/- ----------------------------------------------------------------------
Claim theorems: the collected family-name sequence.
---------------------------------------------------------------------- -/

/-- C4 counterexample: on a snapshot with no nvpmodel value, a successful
collection emits NO family named nvpmodel_info — the family is omitted, not
emitted with zero rows. -/
theorem collect_omits_nvpmodel_family_when_absent :
    JetsonExporter.collect emptySnap [] "GB" [] ≠ none ∧
    "nvpmodel_info" ∉
      ((JetsonExporter.collect emptySnap [] "GB" []).getD []).map MetricFamily.name := by
  constructor
  · simp [JetsonExporter.collect, emptySnap, JetsonExporter.fan,
      JetsonExporter.stats, JetsonExporter.statsLoop]
  · simp [JetsonExporter.collect, emptySnap, JetsonExporter.cpu, JetsonExporter.gpu,
      JetsonExporter.ram, JetsonExporter.swap, JetsonExporter.emc,
      JetsonExporter.temperature, JetsonExporter.integrated_power_machine_parts,
      JetsonExporter.integrated_power_total, JetsonExporter.fan,
      JetsonExporter.nvpmodel, JetsonExporter.disk, JetsonExporter.diskVal,
      JetsonExporter.uptime, JetsonExporter.stats, JetsonExporter.statsLoop,
      JetsonExporter.processes, JetsonExporter.jetson_clocks,
      JetsonExporter.network_bandwidth, pyGet, pyBoolStr]

/-- C4 amended: whenever a collection cycle completes without raising, the
sequence of emitted family names is a fixed list, except that the single
nvpmodel_info family is present exactly when the snapshot carries a truthy
nvpmodel value. -/
theorem collect_family_names_fixed_except_nvpmodel :
    ∀ (snap : Snapshot) (dd : PyDict (PyDict ℚ)) (du : String)
      (net : PyDict NetRates) (fams : List MetricFamily),
      JetsonExporter.collect snap dd du net = some fams →
      fams.map MetricFamily.name =
        collectNamesPre ++
          (if nvpTruthy snap.nvpmodel then ["nvpmodel_info"] else []) ++
          collectNamesPost := by
  intro snap dd du net fams h
  unfold JetsonExporter.collect at h
  split at h
  · rename_i fanFams statsFams hfan hstats
    obtain rfl := Option.some.inj h
    simp only [List.map_append]
    rw [cpu_names, gpu_names, ram_names, swap_names, emc_names, temperature_names,
      power_rails_names, power_total_names, fan_names _ _ hfan, nvpmodel_names,
      disk_names, uptime_names, stats_names _ _ hstats, processes_names,
      clocks_names, network_names]
    cases hnv : nvpTruthy snap.nvpmodel <;>
      simp [hnv, collectNamesPre, collectNamesPost]
  · exact Option.noConfusion h

/-- C4 amended witness: an otherwise empty snapshot with nvpmodel "MODE_15W"
collects successfully and its family-name sequence is the fixed list with
nvpmodel_info present. -/
theorem collect_family_names_fixed_witness :
    JetsonExporter.collect sampleSnap [] "GB" [] =
      some ((JetsonExporter.collect sampleSnap [] "GB" []).getD []) ∧
    ((JetsonExporter.collect sampleSnap [] "GB" []).getD []).map MetricFamily.name =
      collectNamesPre ++ ["nvpmodel_info"] ++ collectNamesPost := by
  have hc : JetsonExporter.collect sampleSnap [] "GB" [] =
      some ((JetsonExporter.collect sampleSnap [] "GB" []).getD []) := rfl
  refine ⟨hc, ?_⟩
  have h := collect_family_names_fixed_except_nvpmodel sampleSnap [] "GB" []
    ((JetsonExporter.collect sampleSnap [] "GB" []).getD []) hc
  rw [h]
  have hnv : nvpTruthy sampleSnap.nvpmodel = true := by
    simp [sampleSnap, emptySnap, nvpTruthy]
  rw [hnv]
  simp
